import Mathlib

/-!
Verification of the backup / point-in-time-restore core of the
db-backup-management repository, as a shallow embedding in Lean.

The embedded code:
* `src/src/restore.py` — `RestoreManager.get_available_backups`,
  `RestoreManager.restore_backup`, `RestoreManager.restore_to_point_in_time`;
* `src/backup/manager.py` — `BackupManager._compress_file`,
  `BackupManager._decompress_file`, `BackupManager._get_last_full_backup`,
  `BackupManager.create_full_backup`, `BackupManager.create_incremental_backup`.

Modelling conventions:
* A backup file is an `Artifact`: its name, its filesystem mtime (`createdAt`,
  a `Nat`, seconds), and whether its name carries the `.gz` suffix.
* The external `mysql` restore tool is an oracle `ok : Artifact → Bool`
  (`true` = exit status 0); the external `mysqldump` tool is a `Bool`.
* The gzip codec is an external collaborator (spec §1) and enters as a
  parameter (a pair of stream transforms on byte lists).
* Exceptions are `Except`; filesystem side effects (temp files, the scoped
  temp directory, files in the backup directories) are explicit fields of
  result structures.
* Writing a file at the current clock time gives it mtime = the clock.
-/

namespace DbBackup

/-- A backup artifact as seen by the catalog: filename, filesystem mtime
(the `createdAt` of the code), and the `.gz`-suffix convention. -/
structure Artifact where
  name : String
  mtime : Nat
  compressed : Bool
deriving DecidableEq

/-- Comparison key used by `sorted(..., key=lambda x: x.stat().st_mtime)`. -/
def mtimeLE (a b : Artifact) : Prop := a.mtime ≤ b.mtime

instance mtimeLE.decRel : DecidableRel mtimeLE := fun a b =>
  inferInstanceAs (Decidable (a.mtime ≤ b.mtime))

instance mtimeLE.total : IsTotal Artifact mtimeLE :=
  ⟨fun a b => Nat.le_total a.mtime b.mtime⟩

instance mtimeLE.trans : IsTrans Artifact mtimeLE :=
  ⟨fun _ _ _ => Nat.le_trans⟩

/-- Model of `sorted(dir.glob("*.sql*"), key=lambda x: x.stat().st_mtime)` — a
stable sort of the directory listing by mtime (the Python `sorted` builtin is
stable, as is insertion sort). -/
def sortByMtime (l : List Artifact) : List Artifact :=
  List.insertionSort mtimeLE l

/-- Model of `RestoreManager.get_available_backups`: both lineages, each sorted
ascending by mtime. -/
def get_available_backups (fulls incs : List Artifact) :
    List Artifact × List Artifact :=
  (sortByMtime fulls, sortByMtime incs)

/-- The baseline scan of `restore_to_point_in_time` (restore.py:83-88):
walk `reversed(full_backups)` and take the first with `backup_time <= target`. -/
def selectBaseline (fulls : List Artifact) (T : Nat) : Option Artifact :=
  (sortByMtime fulls).reverse.find? (fun b => b.mtime ≤ T)

/-- The incremental filter of `restore_to_point_in_time` (restore.py:93-97):
keep, in catalog order, the incrementals with
`full.mtime < mtime ∧ mtime ≤ target`. -/
def selectIncrementals (incs : List Artifact) (ft T : Nat) : List Artifact :=
  (sortByMtime incs).filter (fun b => decide (ft < b.mtime) && decide (b.mtime ≤ T))

/-- The replay order of the incrementals (restore.py:106 sorts the suitable
list again by mtime before applying). -/
def chainIncrementals (incs : List Artifact) (ft T : Nat) : List Artifact :=
  sortByMtime (selectIncrementals incs ft T)

/-- The oldest full backup (head of the ascending catalog listing). -/
def oldestFull (fulls : List Artifact) : Option Artifact :=
  (sortByMtime fulls).head?

/-- Errors raised by the restore path: `ValueError("No suitable full backup
found before the target time")` (restore.py:91) and
`subprocess.CalledProcessError` from the `mysql` invocation (restore.py:66,
re-raised at restore.py:74). -/
inductive RestoreError
  | noSuitableBaseline
  | restoreToolFailed
deriving DecidableEq

/-- The chain replayed by restore.py:103-108: the selected full backup first,
then the suitable incrementals sorted ascending by mtime. -/
def pitrChain (incs : List Artifact) (fb : Artifact) (T : Nat) : List Artifact :=
  fb :: chainIncrementals incs fb.mtime T

/-- One `restore_backup` call per chain element, in order; a non-zero exit of
the `mysql` tool (oracle `ok a = false`) raises, the loop stops, and the
exception propagates. Returns the outcome and the list of artifacts for which
the restore tool was invoked, in invocation order. -/
def replayChain (ok : Artifact → Bool) : List Artifact → Except RestoreError Unit × List Artifact
  | [] => (Except.ok (), [])
  | a :: rest =>
    if ok a then
      let p := replayChain ok rest
      (p.1, a :: p.2)
    else
      (Except.error RestoreError.restoreToolFailed, [a])

/-- Observable outcome of one `restore_to_point_in_time` call. -/
structure PITRResult where
  outcome : Except RestoreError Unit
  applied : List Artifact
  tempDirCreated : Bool
  tempDirRemoved : Bool

/-- Model of `RestoreManager.restore_to_point_in_time` (restore.py:79-117). The
baseline scan runs first; on failure the `ValueError` is raised before the
temp directory is created (restore.py:90-91 precede restore.py:99-100). When
a baseline exists, the temp directory is created, the chain is replayed, and
the `finally` block (restore.py:115-117) removes the temp directory whether
the replay returned or raised. -/
def restore_to_point_in_time (fulls incs : List Artifact) (T : Nat)
    (ok : Artifact → Bool) : PITRResult :=
  match selectBaseline fulls T with
  | none => ⟨Except.error RestoreError.noSuitableBaseline, [], false, false⟩
  | some fb =>
    let p := replayChain ok (pitrChain incs fb T)
    ⟨p.1, p.2, true, true⟩

/-- Observable outcome of one single-artifact `restore_backup` call. -/
structure ApplyResult where
  outcome : Except RestoreError Unit
  tempCreated : Bool
  tempRemovedBeforeReturn : Bool

/-- Model of `RestoreManager.restore_backup` (restore.py:40-77), one artifact: if the
name ends in `.gz` (restore.py:48) a transient decompressed file is created
in the temp directory (restore.py:49-50); the `mysql` tool is invoked
(restore.py:66); on zero exit the transient file is removed
(restore.py:69-70); on non-zero exit the `CalledProcessError` is re-raised
(restore.py:72-74) without reaching the removal at restore.py:69-70.
`BackupManager.restore_backup` (manager.py:123-152) has the same control
flow, with `temp_restore.sql` for the transient name. -/
def restore_backup (a : Artifact) (ok : Artifact → Bool) : ApplyResult :=
  if a.compressed then
    if ok a then ⟨Except.ok (), true, true⟩
    else ⟨Except.error RestoreError.restoreToolFailed, true, false⟩
  else
    if ok a then ⟨Except.ok (), false, false⟩
    else ⟨Except.error RestoreError.restoreToolFailed, false, false⟩

/-- A file as content on disk: its path and its bytes. -/
structure FSFile where
  path : String
  content : List Nat

/-- Model of `BackupManager._compress_file` (manager.py:23-31): streams the file
through the gzip codec into `path + ".gz"` and removes the original. The
codec itself (`gz`) is the external compression collaborator. -/
def compress_file (gz : List Nat → List Nat) (f : FSFile) : FSFile :=
  ⟨f.path ++ ".gz", gz f.content⟩

/-- Model of `BackupManager._decompress_file` (manager.py:33-41) with an explicit
output path: streams the compressed file through the gzip decoder (`gunz`,
the inverse direction of the external codec) into `out`, leaving the source
untouched. -/
def decompress_file (gunz : List Nat → List Nat) (f : FSFile) (out : String) : FSFile :=
  ⟨out, gunz f.content⟩

/-- Model of `open(path, "w")`: creates (or truncates) the file, so the listing
gains the name when absent. -/
def touchFile (dir : List String) (name : String) : List String :=
  if name ∈ dir then dir else dir ++ [name]

/-- Model of `os.remove(path)`. -/
def removeFile (dir : List String) (name : String) : List String :=
  dir.filter (fun n => n ≠ name)

/-- Character-list test: `pat` is a leading segment of `l`. -/
def beginsWith : List Char → List Char → Bool
  | _, [] => true
  | [], _ :: _ => false
  | a :: as, b :: bs => a = b && beginsWith as bs

/-- Character-list test: `pat` occurs contiguously somewhere in `l`. -/
def containsSeq : List Char → List Char → Bool
  | l, pat =>
    beginsWith l pat ||
      (match l with
       | [] => false
       | _ :: as => containsSeq as pat)

/-- The names a catalog listing (`glob("*.sql*")`, manager.py:44,
manager.py:156-163, restore.py:30-37) matches: names containing `.sql`,
which covers both the `.sql` and the `.sql.gz` artifacts the producer
writes. -/
def catalogMatches (dir : List String) : List String :=
  dir.filter (fun n => containsSeq n.data ".sql".data)

/-- Observable outcome of one `create_full_backup` call: the returned path or
the propagated `CalledProcessError`, the resulting full-backup directory
listing, and whether `mysqldump` was invoked. -/
structure ProduceResult where
  outcome : Except Unit String
  dir : List String
  dumpInvoked : Bool

/-- Model of `BackupManager.create_full_backup` (manager.py:49-78): builds the
timestamped name, opens it for writing (creating the file), runs `mysqldump`
with stdout redirected to it (`dumpOk` = zero exit); on success optionally
compresses (removing the `.sql` original, adding the `.sql.gz`); on
`CalledProcessError` re-raises (manager.py:76-78), leaving the just-created
file in place. -/
def create_full_backup (dir : List String) (ts : String) (dumpOk compress : Bool) :
    ProduceResult :=
  let name := "full_backup_" ++ ts ++ ".sql"
  let dir1 := touchFile dir name
  if dumpOk then
    if compress then
      ⟨Except.ok (name ++ ".gz"), removeFile dir1 name ++ [name ++ ".gz"], true⟩
    else ⟨Except.ok name, dir1, true⟩
  else ⟨Except.error (), dir1, true⟩

/-- Model of `BackupManager._get_last_full_backup` (manager.py:43-47): raises
the no-full-backup-found `ValueError` on an empty listing, else the Python
`max(..., key=mtime)` — the first artifact attaining the maximal mtime. -/
def get_last_full_backup (fulls : List Artifact) : Except Unit Artifact :=
  match fulls with
  | [] => Except.error ()
  | f :: fs =>
    Except.ok (fs.foldl (fun acc y => if acc.mtime < y.mtime then y else acc) f)

/-- Errors raised by `create_incremental_backup`: the no-baseline
`ValueError` from manager.py:46 and the propagated `CalledProcessError`
from manager.py:119-121. -/
inductive IncError
  | noBaselineBackup
  | dumpToolFailed
deriving DecidableEq

/-- Observable outcome of one `create_incremental_backup` call. `sinceArg` is
the timestamp interpolated into the `--where` row filter on `created_at`
(none when `mysqldump` is never reached). -/
structure IncResult where
  outcome : Except IncError String
  dumpInvoked : Bool
  sinceArg : Option Nat
  tempCreated : Bool
  tempRemovedBeforeDump : Bool
  incrDir : List String

/-- Model of `BackupManager.create_incremental_backup` (manager.py:80-121). `clock` is
the current time. The last full backup is fetched first (manager.py:83); if
its name ends in `.gz`, it is decompressed to `temp.sql` (manager.py:88-89) —
a freshly written file, so its mtime is `clock`, the time of decompression —
that mtime is read (manager.py:90) and the temp file removed (manager.py:91),
all before `mysqldump` runs (manager.py:111); otherwise the own mtime of the
backup file is used (manager.py:93). The dump writes the freshly opened
timestamped file; failure propagates, success optionally compresses. -/
def create_incremental_backup (fulls : List Artifact) (incrDir : List String)
    (clock : Nat) (ts : String) (dumpOk compress : Bool) : IncResult :=
  match get_last_full_backup fulls with
  | Except.error _ =>
    ⟨Except.error IncError.noBaselineBackup, false, none, false, false, incrDir⟩
  | Except.ok lastFull =>
    let since := if lastFull.compressed then clock else lastFull.mtime
    let name := "incremental_backup_" ++ ts ++ ".sql"
    let dir1 := touchFile incrDir name
    if dumpOk then
      if compress then
        ⟨Except.ok (name ++ ".gz"), true, some since, lastFull.compressed,
          lastFull.compressed, removeFile dir1 name ++ [name ++ ".gz"]⟩
      else
        ⟨Except.ok name, true, some since, lastFull.compressed,
          lastFull.compressed, dir1⟩
    else
      ⟨Except.error IncError.dumpToolFailed, true, some since, lastFull.compressed,
        lastFull.compressed, dir1⟩

/-! ### Helper lemmas about the sorted catalog listing -/

theorem mem_sortByMtime {l : List Artifact} {a : Artifact} :
    a ∈ sortByMtime l ↔ a ∈ l := by
  unfold sortByMtime
  exact (List.perm_insertionSort mtimeLE l).mem_iff

theorem sorted_sortByMtime (l : List Artifact) :
    (sortByMtime l).Sorted mtimeLE :=
  List.sorted_insertionSort mtimeLE l

theorem sorted_reverse_sortByMtime (l : List Artifact) :
    (sortByMtime l).reverse.Sorted (fun a b => b.mtime ≤ a.mtime) := by
  rw [List.Sorted, List.pairwise_reverse]
  exact sorted_sortByMtime l

/-- On a list sorted descending by mtime, `find?` of `mtime ≤ T` returns an
element whose mtime dominates every member satisfying the predicate. -/
theorem find_le_is_max {l : List Artifact} {T : Nat} {b : Artifact}
    (hs : l.Sorted (fun a b => b.mtime ≤ a.mtime))
    (hb : l.find? (fun x => decide (x.mtime ≤ T)) = some b) :
    ∀ a ∈ l, a.mtime ≤ T → a.mtime ≤ b.mtime := by
  induction l with
  | nil => simp at hb
  | cons c rest ih =>
    rw [List.sorted_cons] at hs
    by_cases hc : c.mtime ≤ T
    · rw [List.find?_cons_of_pos _ (by simpa using hc)] at hb
      cases hb
      intro a ha _
      rcases List.mem_cons.mp ha with h | h
      · exact h ▸ Nat.le_refl _
      · exact hs.1 a h
    · rw [List.find?_cons_of_neg _ (by simpa using hc)] at hb
      intro a ha haT
      rcases List.mem_cons.mp ha with h | h
      · exact absurd (h ▸ haT) hc
      · exact ih hs.2 hb a h haT

/-! ### Helper lemmas about the replay loop -/

theorem replayChain_applied (ok : Artifact → Bool) (l : List Artifact) :
    (replayChain ok l).2 = l.takeWhile ok ++ (l.dropWhile ok).take 1 := by
  induction l with
  | nil => rfl
  | cons a rest ih =>
    by_cases h : ok a
    · simp [replayChain, List.takeWhile_cons, List.dropWhile_cons, h, ih]
    · simp [replayChain, List.takeWhile_cons, List.dropWhile_cons, h]

theorem replayChain_applied_leads (ok : Artifact → Bool) (l : List Artifact) :
    ∃ rest, l = (replayChain ok l).2 ++ rest := by
  induction l with
  | nil => exact ⟨[], rfl⟩
  | cons a t ih =>
    by_cases h : ok a
    · obtain ⟨rest, hrest⟩ := ih
      exact ⟨rest, by simp [replayChain, h]; exact hrest⟩
    · exact ⟨t, by simp [replayChain, h]⟩

theorem replayChain_ok_iff (ok : Artifact → Bool) (l : List Artifact) :
    (replayChain ok l).1 = Except.ok () ↔ ∀ a ∈ l, ok a = true := by
  induction l with
  | nil => simp [replayChain]
  | cons a t ih =>
    by_cases h : ok a
    · simp [replayChain, h, ih]
    · simp [replayChain, h]

theorem replayChain_error (ok : Artifact → Bool) (l : List Artifact)
    (h : (replayChain ok l).1 ≠ Except.ok ()) :
    (replayChain ok l).1 = Except.error RestoreError.restoreToolFailed := by
  induction l with
  | nil => exact absurd rfl h
  | cons a t ih =>
    by_cases hok : ok a
    · simp only [replayChain, hok, if_true] at h ⊢
      exact ih h
    · simp [replayChain, hok]

theorem mem_selectIncrementals {incs : List Artifact} {ft T : Nat} {a : Artifact} :
    a ∈ selectIncrementals incs ft T ↔ a ∈ incs ∧ ft < a.mtime ∧ a.mtime ≤ T := by
  unfold selectIncrementals
  simp [List.mem_filter, mem_sortByMtime, and_assoc]

theorem selectBaseline_isSome_iff (fulls : List Artifact) (T : Nat) :
    (selectBaseline fulls T).isSome ↔ ∃ a ∈ fulls, a.mtime ≤ T := by
  unfold selectBaseline
  rw [List.find?_isSome]
  simp [List.mem_reverse, mem_sortByMtime]

/-! ### C1 — baseline selection maximality -/

/-- C1: with a non-empty full-backup catalog whose oldest entry is no newer
than the target `T`, the baseline scan of `restore_to_point_in_time` selects a
full backup whose `createdAt` is maximal among full backups with
`createdAt ≤ T`. -/
theorem baseline_is_max_le_target (fulls : List Artifact) (T : Nat)
    (hne : fulls ≠ []) (hold : ∀ o ∈ oldestFull fulls, o.mtime ≤ T) :
    ∃ fb, selectBaseline fulls T = some fb ∧ fb.mtime ≤ T ∧
      ∀ a ∈ fulls, a.mtime ≤ T → a.mtime ≤ fb.mtime := by
  have hsne : sortByMtime fulls ≠ [] := by
    intro h
    exact hne (List.eq_nil_iff_forall_not_mem.mpr (fun a ha =>
      by simpa [h] using mem_sortByMtime.mpr ha))
  obtain ⟨o, lo, ho⟩ := List.exists_cons_of_ne_nil hsne
  have hoT : o.mtime ≤ T := hold o (by simp [oldestFull, ho])
  have homem : o ∈ fulls := mem_sortByMtime.mp (by simp [ho])
  have hex : ∃ x, x ∈ (sortByMtime fulls).reverse ∧
      (fun b => decide (b.mtime ≤ T)) x = true := by
    exact ⟨o, by simp [List.mem_reverse, ho], by simpa using hoT⟩
  have hsome := List.find?_isSome.mpr hex
  obtain ⟨fb, hfb⟩ := Option.isSome_iff_exists.mp hsome
  refine ⟨fb, hfb, by simpa using List.find?_some hfb, ?_⟩
  intro a ha haT
  exact find_le_is_max (sorted_reverse_sortByMtime fulls) hfb a
    (by simp [List.mem_reverse, mem_sortByMtime, ha]) haT

/-- C1 witness: catalog with full backups at mtimes 100 and 500, target 400 —
the scan selects the backup at 100 and it is maximal among those `≤ 400`. -/
theorem baseline_is_max_le_target_witness :
    ∃ fb, selectBaseline [Artifact.mk "f1.sql" 100 false,
        Artifact.mk "f2.sql" 500 false] 400 = some fb ∧ fb.mtime ≤ 400 ∧
      ∀ a ∈ [Artifact.mk "f1.sql" 100 false, Artifact.mk "f2.sql" 500 false],
        a.mtime ≤ 400 → a.mtime ≤ fb.mtime :=
  baseline_is_max_le_target _ 400 (by decide) (by decide)

/-! ### C2 — the incremental sequence of the chain -/

/-- C2 (amended): when a baseline is selected, the incremental sequence chosen
by `restore_to_point_in_time` is sorted non-decreasingly by `createdAt` and
the `createdAt` of every element lies in `(fb.createdAt, T]`; the empty sequence is
permitted. (Non-decreasing, not strictly ascending: two incrementals sharing
an mtime are both kept, see the counterexample.) -/
theorem chain_incrementals_sorted_bounds (fulls incs : List Artifact) (T : Nat)
    (fb : Artifact) (_hfb : selectBaseline fulls T = some fb) :
    (chainIncrementals incs fb.mtime T).Sorted mtimeLE ∧
      ∀ a ∈ chainIncrementals incs fb.mtime T,
        fb.mtime < a.mtime ∧ a.mtime ≤ T := by
  refine ⟨sorted_sortByMtime _, ?_⟩
  intro a ha
  have := mem_selectIncrementals.mp (mem_sortByMtime.mp ha)
  exact this.2

/-- C2 witness: full backup at mtime 100 below target 400; incrementals at
150 and 300 form the chain, sorted and inside `(100, 400]`. -/
theorem chain_incrementals_sorted_bounds_witness :
    (chainIncrementals [Artifact.mk "i2.sql" 300 false, Artifact.mk "i1.sql" 150 false]
        (Artifact.mk "f1.sql" 100 false).mtime 400).Sorted mtimeLE ∧
      ∀ a ∈ chainIncrementals [Artifact.mk "i2.sql" 300 false, Artifact.mk "i1.sql" 150 false]
          (Artifact.mk "f1.sql" 100 false).mtime 400,
        (Artifact.mk "f1.sql" 100 false).mtime < a.mtime ∧ a.mtime ≤ 400 :=
  chain_incrementals_sorted_bounds [Artifact.mk "f1.sql" 100 false] _ 400 _ (by decide)

/-- C2 counterexample: with a baseline selected, two distinct incrementals
sharing mtime 5 are both kept, so the chosen sequence is NOT strictly
ascending by `createdAt`. -/
theorem chain_incrementals_not_strictly_ascending :
    selectBaseline [Artifact.mk "f.sql" 0 false] 10 = some (Artifact.mk "f.sql" 0 false) ∧
    ¬ (chainIncrementals [Artifact.mk "i1.sql" 5 false, Artifact.mk "i2.sql" 5 false]
        (Artifact.mk "f.sql" 0 false).mtime 10).Sorted
        (fun a b => a.mtime < b.mtime) := by
  constructor
  · decide
  · have : (chainIncrementals [Artifact.mk "i1.sql" 5 false, Artifact.mk "i2.sql" 5 false]
        (Artifact.mk "f.sql" 0 false).mtime 10) =
        [Artifact.mk "i1.sql" 5 false, Artifact.mk "i2.sql" 5 false] := by decide
    rw [this]
    intro h
    exact absurd (List.rel_of_sorted_cons h (Artifact.mk "i2.sql" 5 false) (by simp))
      (by decide)

/-! ### C3 — failure when no full backup is old enough -/

/-- C3: the baseline scan succeeds exactly when some full backup has
`createdAt ≤ T`; when every full backup is strictly newer than `T` (also when
the catalog is empty), `restore_to_point_in_time` raises the
no-suitable-baseline `ValueError` and applies no restore artifact. -/
theorem no_suitable_baseline (fulls incs : List Artifact) (T : Nat)
    (ok : Artifact → Bool) :
    ((selectBaseline fulls T).isSome ↔ ∃ a ∈ fulls, a.mtime ≤ T) ∧
    ((∀ a ∈ fulls, T < a.mtime) →
      (restore_to_point_in_time fulls incs T ok).outcome =
          Except.error RestoreError.noSuitableBaseline ∧
        (restore_to_point_in_time fulls incs T ok).applied = []) := by
  refine ⟨selectBaseline_isSome_iff fulls T, ?_⟩
  intro h
  have hnone : selectBaseline fulls T = none := by
    cases hs : selectBaseline fulls T with
    | none => rfl
    | some fb =>
      obtain ⟨a, ha, haT⟩ := (selectBaseline_isSome_iff fulls T).mp (by simp [hs])
      exact absurd haT (Nat.not_le.mpr (h a ha))
  simp [restore_to_point_in_time, hnone]

/-- C3 witness: target 50 is older than the only full backup (mtime 100) —
the operation fails with the no-suitable-baseline error and applies nothing
(spec Scenario B). -/
theorem no_suitable_baseline_witness :
    (restore_to_point_in_time [Artifact.mk "f.sql" 100 false] [] 50
        (fun _ => true)).outcome = Except.error RestoreError.noSuitableBaseline ∧
    (restore_to_point_in_time [Artifact.mk "f.sql" 100 false] [] 50
        (fun _ => true)).applied = [] :=
  (no_suitable_baseline [Artifact.mk "f.sql" 100 false] [] 50 (fun _ => true)).2
    (by decide)

/-! ### C4 — chain order and halt-on-first-failure -/

/-- C4: once a baseline is selected, `restore_to_point_in_time` invokes the
restore tool in chain order (full backup first, then incrementals ascending):
the invoked artifacts are exactly the tool-successful leading segment of the
chain plus, if any artifact remains, the single first failing one; they form a
leading segment of the chain (nothing positioned after a failure is applied);
the operation succeeds iff the tool succeeds on the whole chain, and any
failure surfaces as the restore-tool-failed error. -/
theorem replay_order_and_halt (fulls incs : List Artifact) (T : Nat)
    (ok : Artifact → Bool) (fb : Artifact)
    (hfb : selectBaseline fulls T = some fb) :
    (restore_to_point_in_time fulls incs T ok).applied =
        (pitrChain incs fb T).takeWhile ok ++
          ((pitrChain incs fb T).dropWhile ok).take 1 ∧
    (∃ rest, pitrChain incs fb T =
        (restore_to_point_in_time fulls incs T ok).applied ++ rest) ∧
    ((restore_to_point_in_time fulls incs T ok).outcome = Except.ok () ↔
        ∀ a ∈ pitrChain incs fb T, ok a = true) ∧
    ((restore_to_point_in_time fulls incs T ok).outcome ≠ Except.ok () →
        (restore_to_point_in_time fulls incs T ok).outcome =
          Except.error RestoreError.restoreToolFailed) := by
  simp only [restore_to_point_in_time, hfb]
  exact ⟨replayChain_applied ok _, replayChain_applied_leads ok _,
    replayChain_ok_iff ok _, replayChain_error ok _⟩

/-- C4 witness (spec Scenario C): chain full@100, inc@150, inc@300 with the
tool failing on the artifact at mtime 300 — the applied list is the leading
segment of the chain through the failing artifact, the outcome is the
restore-tool-failed error, and the remaining chain elements are untouched. -/
theorem replay_order_and_halt_witness :
    (restore_to_point_in_time [Artifact.mk "f.sql" 100 false]
        [Artifact.mk "i1.sql" 150 false, Artifact.mk "i2.sql" 300 false] 400
        (fun a => decide (a.mtime ≠ 300))).applied =
        ((pitrChain [Artifact.mk "i1.sql" 150 false, Artifact.mk "i2.sql" 300 false]
            (Artifact.mk "f.sql" 100 false) 400).takeWhile
              (fun a => decide (a.mtime ≠ 300)) ++
          ((pitrChain [Artifact.mk "i1.sql" 150 false, Artifact.mk "i2.sql" 300 false]
            (Artifact.mk "f.sql" 100 false) 400).dropWhile
              (fun a => decide (a.mtime ≠ 300))).take 1) ∧
    (∃ rest, pitrChain [Artifact.mk "i1.sql" 150 false, Artifact.mk "i2.sql" 300 false]
          (Artifact.mk "f.sql" 100 false) 400 =
        (restore_to_point_in_time [Artifact.mk "f.sql" 100 false]
          [Artifact.mk "i1.sql" 150 false, Artifact.mk "i2.sql" 300 false] 400
          (fun a => decide (a.mtime ≠ 300))).applied ++ rest) ∧
    ((restore_to_point_in_time [Artifact.mk "f.sql" 100 false]
        [Artifact.mk "i1.sql" 150 false, Artifact.mk "i2.sql" 300 false] 400
        (fun a => decide (a.mtime ≠ 300))).outcome = Except.ok () ↔
      ∀ a ∈ pitrChain [Artifact.mk "i1.sql" 150 false, Artifact.mk "i2.sql" 300 false]
          (Artifact.mk "f.sql" 100 false) 400, (fun a => decide (a.mtime ≠ 300)) a = true) ∧
    ((restore_to_point_in_time [Artifact.mk "f.sql" 100 false]
        [Artifact.mk "i1.sql" 150 false, Artifact.mk "i2.sql" 300 false] 400
        (fun a => decide (a.mtime ≠ 300))).outcome ≠ Except.ok () →
      (restore_to_point_in_time [Artifact.mk "f.sql" 100 false]
        [Artifact.mk "i1.sql" 150 false, Artifact.mk "i2.sql" 300 false] 400
        (fun a => decide (a.mtime ≠ 300))).outcome =
          Except.error RestoreError.restoreToolFailed) :=
  replay_order_and_halt [Artifact.mk "f.sql" 100 false]
    [Artifact.mk "i1.sql" 150 false, Artifact.mk "i2.sql" 300 false] 400
    (fun a => decide (a.mtime ≠ 300)) (Artifact.mk "f.sql" 100 false) (by decide)

/-! ### C5 — the scoped temp directory -/

/-- C5: whenever `restore_to_point_in_time` reaches the replay phase (a
baseline was selected, so restore.py:99-100 created the scoped temp
directory), the `finally` block removes the directory on every exit path —
for every restore-tool oracle, success or mid-chain exception alike. -/
theorem tempdir_removed_on_every_exit (fulls incs : List Artifact) (T : Nat)
    (ok : Artifact → Bool) (fb : Artifact)
    (hfb : selectBaseline fulls T = some fb) :
    (restore_to_point_in_time fulls incs T ok).tempDirCreated = true ∧
    (restore_to_point_in_time fulls incs T ok).tempDirRemoved = true := by
  simp [restore_to_point_in_time, hfb]

/-- C5 witness: a chain whose very first artifact fails still ends with the
temp directory created and removed. -/
theorem tempdir_removed_on_every_exit_witness :
    (restore_to_point_in_time [Artifact.mk "f.sql" 100 false]
        [Artifact.mk "i1.sql" 150 false] 400 (fun _ => false)).tempDirCreated = true ∧
    (restore_to_point_in_time [Artifact.mk "f.sql" 100 false]
        [Artifact.mk "i1.sql" 150 false] 400 (fun _ => false)).tempDirRemoved = true :=
  tempdir_removed_on_every_exit [Artifact.mk "f.sql" 100 false]
    [Artifact.mk "i1.sql" 150 false] 400 (fun _ => false)
    (Artifact.mk "f.sql" 100 false) (by decide)

/-! ### C6 — the transient decompressed file of a single-artifact restore -/

/-- C6 counterexample: a compressed artifact whose restore-tool invocation
fails — `restore_backup` creates the transient decompressed file but returns
(raises) without deleting it; only the success path reaches the removal. -/
theorem compressed_temp_left_on_failure :
    (restore_backup (Artifact.mk "b.sql.gz" 100 true) (fun _ => false)).tempCreated = true ∧
    (restore_backup (Artifact.mk "b.sql.gz" 100 true)
        (fun _ => false)).tempRemovedBeforeReturn = false :=
  ⟨rfl, rfl⟩

/-- C6 (amended): `restore_backup` creates a transient decompressed file
exactly for compressed artifacts, and deletes it before returning exactly on
the success path; on a restore-tool failure the transient file is left in
place (inside the orchestrator it is only swept away with the scoped temp
directory). -/
theorem apply_temp_lifecycle (a : Artifact) (ok : Artifact → Bool) :
    (restore_backup a ok).tempCreated = a.compressed ∧
    (restore_backup a ok).tempRemovedBeforeReturn = (a.compressed && ok a) := by
  unfold restore_backup
  cases h : a.compressed <;> cases h2 : ok a <;> simp [h, h2]

/-! ### C7 — failed dump leaves a partial catalog entry -/

/-- C7 (refuting evaluation): starting from an empty full-backup directory, a
`create_full_backup` whose `mysqldump` exits non-zero propagates the error but
leaves the freshly created, truncated `full_backup_<ts>.sql` behind — the
catalog listing afterwards differs from the listing before. The companion
conjunct shows the same for `create_incremental_backup` with a baseline
present. -/
theorem failed_dump_leaves_partial_file :
    (create_full_backup [] "20240101_120000" false true).outcome = Except.error () ∧
    catalogMatches (create_full_backup [] "20240101_120000" false true).dir =
      ["full_backup_20240101_120000.sql"] ∧
    catalogMatches (create_full_backup [] "20240101_120000" false true).dir ≠
      catalogMatches [] ∧
    (create_incremental_backup [Artifact.mk "full_backup_a.sql" 10 false] [] 50
        "20240101_130000" false true).outcome = Except.error IncError.dumpToolFailed ∧
    catalogMatches (create_incremental_backup [Artifact.mk "full_backup_a.sql" 10 false]
        [] 50 "20240101_130000" false true).incrDir =
      ["incremental_backup_20240101_130000.sql"] := by
  refine ⟨rfl, by decide, by decide, rfl, by decide⟩

/-! ### C9 — incremental backup requires a baseline -/

/-- C9: with an empty full-backup catalog, `create_incremental_backup` fails
with the no-baseline `ValueError` before invoking `mysqldump` and writes
nothing into the incremental directory; with any full backup present it never
fails with that error. -/
theorem incremental_requires_baseline (incrDir : List String) (clock : Nat)
    (ts : String) (dumpOk compress : Bool) (f : Artifact) (fs : List Artifact) :
    (create_incremental_backup [] incrDir clock ts dumpOk compress).outcome =
        Except.error IncError.noBaselineBackup ∧
    (create_incremental_backup [] incrDir clock ts dumpOk compress).dumpInvoked = false ∧
    (create_incremental_backup [] incrDir clock ts dumpOk compress).incrDir = incrDir ∧
    (create_incremental_backup (f :: fs) incrDir clock ts dumpOk compress).outcome ≠
        Except.error IncError.noBaselineBackup := by
  refine ⟨rfl, rfl, rfl, ?_⟩
  simp only [create_incremental_backup, get_last_full_backup]
  cases dumpOk <;> cases compress <;> simp

/-! ### C10 — the incremental row-filter lower bound -/

/-- C10: when the most recent full backup is uncompressed, the `--where` lower
bound passed to `mysqldump` is the mtime of that file; when it is compressed, the
bound is the mtime of the transient decompressed copy — the time of
decompression (`clock`) — and that copy is created and removed again before
the dump is invoked. -/
theorem incremental_since_timestamp (fulls : List Artifact) (incrDir : List String)
    (clock : Nat) (ts : String) (dumpOk compress : Bool) (lf : Artifact)
    (hlf : get_last_full_backup fulls = Except.ok lf) :
    (create_incremental_backup fulls incrDir clock ts dumpOk compress).sinceArg =
        some (if lf.compressed then clock else lf.mtime) ∧
    (create_incremental_backup fulls incrDir clock ts dumpOk compress).tempCreated =
        lf.compressed ∧
    (create_incremental_backup fulls incrDir clock ts dumpOk
        compress).tempRemovedBeforeDump = lf.compressed := by
  simp only [create_incremental_backup, hlf]
  cases dumpOk <;> cases compress <;> simp

/-- C10 witness: the single full backup is compressed, the clock reads 777 —
the row-filter bound is 777 (the decompression time, not the backup mtime
10), and the transient copy is created and removed before the dump. -/
theorem incremental_since_timestamp_witness :
    (create_incremental_backup [Artifact.mk "full_backup_a.sql.gz" 10 true] [] 777
        "ts" true true).sinceArg =
      some (if (Artifact.mk "full_backup_a.sql.gz" 10 true).compressed then 777
        else (Artifact.mk "full_backup_a.sql.gz" 10 true).mtime) ∧
    (create_incremental_backup [Artifact.mk "full_backup_a.sql.gz" 10 true] [] 777
        "ts" true true).tempCreated = (Artifact.mk "full_backup_a.sql.gz" 10 true).compressed ∧
    (create_incremental_backup [Artifact.mk "full_backup_a.sql.gz" 10 true] [] 777
        "ts" true true).tempRemovedBeforeDump =
      (Artifact.mk "full_backup_a.sql.gz" 10 true).compressed :=
  incremental_since_timestamp [Artifact.mk "full_backup_a.sql.gz" 10 true] [] 777
    "ts" true true (Artifact.mk "full_backup_a.sql.gz" 10 true) rfl

/-! ### C8 — compression round trip -/

/-- C8: for every byte content, the empty content included, decompressing the
result of compressing a file restores its bytes exactly, and the compressed
copy lives at the `.gz`-suffixed path. The gzip codec is the external
compression collaborator; `hcodec` is its interface contract (the round-trip
law of spec §4.2 for the opaque stream transform). -/
theorem compress_decompress_roundtrip (gz gunz : List Nat → List Nat)
    (hcodec : ∀ x, gunz (gz x) = x) (f : FSFile) :
    (compress_file gz f).path = f.path ++ ".gz" ∧
    (decompress_file gunz (compress_file gz f) f.path).content = f.content ∧
    (decompress_file gunz (compress_file gz f) f.path).path = f.path := by
  simp [compress_file, decompress_file, hcodec]

/-- C8 witness (spec Scenario D): a 0-byte artifact, with a concrete codec
satisfying the interface contract, round-trips to a 0-byte output at the
original path. -/
theorem compress_decompress_roundtrip_witness :
    (compress_file (fun x => x) (FSFile.mk "a.sql" [])).path = "a.sql" ++ ".gz" ∧
    (decompress_file (fun x => x) (compress_file (fun x => x) (FSFile.mk "a.sql" []))
        "a.sql").content = [] ∧
    (decompress_file (fun x => x) (compress_file (fun x => x) (FSFile.mk "a.sql" []))
        "a.sql").path = "a.sql" :=
  compress_decompress_roundtrip (fun x => x) (fun x => x) (fun _ => rfl)
    (FSFile.mk "a.sql" [])

end DbBackup
